import Mathlib

/-!
Shallow embedding of the AirAware AQI dashboard core (`script.js`):
location resolution (`AQIService.validateCity`, `AQIService.getCityByCoords`),
conditions aggregation (`AQIService.getCityData`), forecast-series construction
(`AQIService.processForecast`) and the health-advisory classifier
(`AIAnalyst.analyze`).

Network calls are modelled by passing the provider's outcome explicitly
(`FetchOutcome`): a transport failure, or a response carrying the HTTP
`ok` flag together with a decoded body.  Thrown JavaScript errors become
`Except String` values carrying the thrown `Error.message`; JSON numbers
become `ℚ`, integer AQI samples become `Int`, and possibly-absent JSON
fields become `Option` fields.  The wall clock (`new Date()`) is passed
as an explicit `now : Int` epoch value.
-/

/-- Outcome of a `fetch` call: a transport-level failure (the promise
rejects), or a response with its `ok` status flag and decoded JSON body. -/
inductive FetchOutcome (α : Type) where
  | netError : FetchOutcome α
  | response (ok : Bool) (body : α) : FetchOutcome α
deriving DecidableEq, Repr

/-- JS string-chain `a || b || ... || dflt`: the first operand that is
truthy (present and non-empty) wins, else the default. -/
def firstTruthy (opts : List (Option String)) (dflt : String) : String :=
  match opts with
  | [] => dflt
  | o :: rest =>
    match o with
    | some s => if s = "" then firstTruthy rest dflt else s
    | none => firstTruthy rest dflt

/-- JS ternary `cc ? cc.toUpperCase() : ''` (an absent or empty code is falsy). -/
def countryOf (cc : Option String) : String :=
  match cc with
  | some s => if s = "" then "" else s.toUpper
  | none => ""

/-- JS `msg.includes(pat)`. -/
def strIncludes (msg pat : String) : Bool :=
  decide (pat.toList <:+: msg.toList)

/-- JS `v || 50` applied to an array lookup: an out-of-bounds read
(`undefined`) and the number `0` are both falsy and yield `50`. -/
def jsOr50 (o : Option Int) : Int :=
  match o with
  | some v => if v = 0 then 50 else v
  | none => 50

/-- JS `Math.round`: round half-up (toward `+∞`). -/
def jsRound (q : ℚ) : Int :=
  Int.floor (q + 1 / 2)

/-- Nominatim address components used by the code; each may be absent. -/
structure Address where
  city : Option String
  town : Option String
  village : Option String
  municipality : Option String
  country_code : Option String
deriving DecidableEq, Repr

/-- The JS default `location.address || {}`. -/
def emptyAddress : Address :=
  { city := none, town := none, village := none, municipality := none, country_code := none }

/-- The record returned by both resolution operations.  The catch-path of
`getCityByCoords` builds an object without a `displayName` property; that
absence is `displayName = none`. -/
structure Location where
  lat : ℚ
  lon : ℚ
  cityName : String
  country : String
  displayName : Option String
deriving DecidableEq, Repr

/-- One ranked match from the Nominatim forward-search response. -/
structure SearchMatch where
  lat : ℚ
  lon : ℚ
  address : Option Address
  display_name : Option String
deriving DecidableEq, Repr

/-- Body of the Nominatim reverse-lookup response. -/
structure ReverseBody where
  address : Option Address
  display_name : Option String
deriving DecidableEq, Repr

/-- The `try` block of `AQIService.validateCity`: non-ok response and
zero matches each throw their distinct message; a transport failure
rejects with the browser's own message, which never mentions a place
("Failed to fetch"). -/
def validateCityTry (city : String) (resp : FetchOutcome (List SearchMatch)) :
    Except String Location :=
  match resp with
  | .netError => .error ("Failed to fetch")
  | .response ok body =>
    if !ok then
      .error ("Unable to connect to geocoding service.")
    else
      match body with
      | [] => .error ("City not found. Please check the spelling and try again.")
      | location :: _ =>
        let address := location.address.getD emptyAddress
        .ok { lat := location.lat, lon := location.lon,
              cityName := firstTruthy
                [address.city, address.town, address.village, address.municipality] city,
              country := countryOf address.country_code,
              displayName := location.display_name }

/-- `AQIService.validateCity`: the `catch` block rethrows a message that
contains "not found" as the not-found error and everything else as the
service-unavailable error. -/
def validateCity (city : String) (resp : FetchOutcome (List SearchMatch)) :
    Except String Location :=
  match validateCityTry city resp with
  | .ok loc => .ok loc
  | .error msg =>
    if strIncludes msg ("not found") then
      .error ("City not found. Please check the spelling and try again.")
    else
      .error ("Unable to validate city. Please try again later.")

/-- `AQIService.getCityByCoords`: a transport failure or a non-ok
response lands in the `catch` block, which returns the degraded record
`{lat, lon, cityName: "Current Location", country: ""}` (no
`displayName` property).  A successful response is mapped like
`validateCity`, except the city-name fallback is "Unknown Location". -/
def getCityByCoords (lat lon : ℚ) (resp : FetchOutcome ReverseBody) : Location :=
  match resp with
  | .netError =>
    { lat := lat, lon := lon, cityName := "Current Location", country := "", displayName := none }
  | .response ok data =>
    if !ok then
      { lat := lat, lon := lon, cityName := "Current Location", country := "", displayName := none }
    else
      let address := data.address.getD emptyAddress
      { lat := lat, lon := lon,
        cityName := firstTruthy
          [address.city, address.town, address.village, address.municipality] ("Unknown Location"),
        country := countryOf address.country_code,
        displayName := data.display_name }

/-- The `hourly` member of the air-quality response: parallel arrays of
timestamps (epoch instants) and integer AQI samples. -/
structure HourlyData where
  time : List Int
  us_aqi : List Int
deriving DecidableEq, Repr

/-- One iteration of the history loop in `processForecast`: the JS index
`currentHourIndex - off` is pushed verbatim when `0 ≤ index < us_aqi.length`,
else `us_aqi[currentHourIndex] || 50` is pushed.  (`off ≤ ci` expresses
`index >= 0`; within that branch Nat and JS subtraction agree.) -/
def sampleAt (vals : List Int) (ci : Nat) (off : Nat) : Int :=
  if off ≤ ci ∧ ci - off < vals.length then
    vals.getD (ci - off) 0
  else
    jsOr50 (vals.get? ci)

/-- `AQIService.processForecast`: find the first timestamp `≥ now`
(`findIndex`); on `-1` return the fixed fallback; otherwise sample
offsets 4,3,2,1,0 before that index and append the next-hour value, or,
out of bounds, repeat the last collected point (`dataPoints[4]`, the
offset-0 sample). -/
def processForecast (h : HourlyData) (now : Int) : List Int :=
  match h.time.findIdx? (fun t => decide (now ≤ t)) with
  | none => [50, 50, 50, 50, 50, 50]
  | some currentHourIndex =>
    let dataPoints :=
      [sampleAt h.us_aqi currentHourIndex 4,
       sampleAt h.us_aqi currentHourIndex 3,
       sampleAt h.us_aqi currentHourIndex 2,
       sampleAt h.us_aqi currentHourIndex 1,
       sampleAt h.us_aqi currentHourIndex 0]
    let nextIndex := currentHourIndex + 1
    let forecastPoint :=
      match h.us_aqi.get? nextIndex with
      | some v => v
      | none => sampleAt h.us_aqi currentHourIndex 0
    dataPoints ++ [forecastPoint]

/-- `AQIService.getWeatherDescription`: WMO code table with default "Clear". -/
def getWeatherDescription (code : Int) : String :=
  match code with
  | 0 => "Clear"
  | 1 => "Mainly Clear"
  | 2 => "Partly Cloudy"
  | 3 => "Overcast"
  | 45 => "Foggy"
  | 48 => "Depositing Rime Fog"
  | 51 => "Light Drizzle"
  | 53 => "Moderate Drizzle"
  | 55 => "Dense Drizzle"
  | 56 => "Light Freezing Drizzle"
  | 57 => "Dense Freezing Drizzle"
  | 61 => "Slight Rain"
  | 63 => "Moderate Rain"
  | 65 => "Heavy Rain"
  | 66 => "Light Freezing Rain"
  | 67 => "Heavy Freezing Rain"
  | 71 => "Slight Snow"
  | 73 => "Moderate Snow"
  | 75 => "Heavy Snow"
  | 77 => "Snow Grains"
  | 80 => "Slight Rain Showers"
  | 81 => "Moderate Rain Showers"
  | 82 => "Violent Rain Showers"
  | 85 => "Slight Snow Showers"
  | 86 => "Heavy Snow Showers"
  | 95 => "Thunderstorm"
  | 96 => "Thunderstorm/Hail"
  | 99 => "Heavy Thunderstorm"
  | _ => "Clear"

/-- `current` member of the Open-Meteo weather response. -/
structure WeatherCurrent where
  temperature_2m : ℚ
  relative_humidity_2m : ℚ
  wind_speed_10m : ℚ
  weather_code : Int
deriving DecidableEq, Repr

/-- Body of the Open-Meteo weather response. -/
structure WeatherBody where
  current : WeatherCurrent
deriving DecidableEq, Repr

/-- `current` member of the Open-Meteo air-quality response; every field
may be null. -/
structure AqiCurrent where
  us_aqi : Option ℚ
  pm2_5 : Option ℚ
  pm10 : Option ℚ
  ozone : Option ℚ
deriving DecidableEq, Repr

/-- Body of the Open-Meteo air-quality response. -/
structure AqiBody where
  current : Option AqiCurrent
  hourly : HourlyData
deriving DecidableEq, Repr

/-- The merged record handed to the presentation layer and to `analyze`. -/
structure Conditions where
  city : String
  country : String
  aqi : Int
  temp : Int
  humidity : Int
  wind : Int
  pm25 : ℚ
  pm10 : ℚ
  o3 : ℚ
  weather : String
  forecast : List Int
deriving DecidableEq, Repr

/-- `AQIService.getCityData`: weather fetch, then air-quality fetch, the
null-AQI guard, then the merged `Conditions`.  The final JS
`catch (error) { throw error }` rethrows unchanged, so errors are the
thrown messages themselves. -/
def getCityData (cityData : Location) (wres : FetchOutcome WeatherBody)
    (ares : FetchOutcome AqiBody) (now : Int) : Except String Conditions :=
  match wres with
  | .netError => .error ("Failed to fetch")
  | .response wok wbody =>
    if !wok then
      .error ("Unable to fetch weather data for this location.")
    else
      let current := wbody.current
      match ares with
      | .netError => .error ("Failed to fetch")
      | .response aok abody =>
        if !aok then
          .error ("Unable to fetch air quality data for this location.")
        else
          match abody.current with
          | none =>
            .error ("Air quality data is not available for this location. Please try a different city.")
          | some aqiCurrent =>
            match aqiCurrent.us_aqi with
            | none =>
              .error ("Air quality data is not available for this location. Please try a different city.")
            | some usAqi =>
              let forecast := processForecast abody.hourly now
              let weatherDescription := getWeatherDescription current.weather_code
              .ok { city := cityData.cityName,
                    country := cityData.country,
                    aqi := jsRound usAqi,
                    temp := jsRound current.temperature_2m,
                    humidity := jsRound current.relative_humidity_2m,
                    wind := jsRound (current.wind_speed_10m * 3.6),
                    pm25 := aqiCurrent.pm2_5.getD 0,
                    pm10 := aqiCurrent.pm10.getD 0,
                    o3 := aqiCurrent.ozone.getD 0,
                    weather := weatherDescription,
                    forecast := forecast }

/-- The advisory text produced by `AIAnalyst.analyze`. -/
structure Advisory where
  advice : String
deriving DecidableEq, Repr

/-- The Good-band template literal of `analyze` (references the temperature). -/
def goodAdvice (temp : Int) : String :=
  "Currently, the air is pristine. It\x27s a great time to open windows or go for a run. The temperature is "
    ++ toString temp ++ "°C, making it comfortable. Enjoy the fresh air!"

/-- The Moderate-band template literal of `analyze` (references the weather label). -/
def moderateAdvice (weather : String) : String :=
  "Air quality is acceptable. However, if you are unusually sensitive to pollution, consider limiting prolonged outdoor exertion. It\x27s "
    ++ weather ++ " outside."

/-- The Unhealthy-band literal of `analyze` (no substitutions). -/
def unhealthyAdvice : String :=
  "Alert: Unhealthy air quality detected. Everyone may begin to experience health effects. Active children and adults should avoid prolonged outdoor exertion. Wear a mask if necessary."

/-- The Hazardous-band template literal of `analyze` (references the weather label). -/
def hazardousAdvice (weather : String) : String :=
  "CRITICAL WARNING: Hazardous conditions! Avoid all physical activity outdoors. Keep windows closed. Run an air purifier if available. Visibility is low due to "
    ++ weather ++ "."

/-- `AIAnalyst.analyze`: destructures `aqi`, `temp`, `weather` and picks
one advisory by the chained `if (aqi <= 50) / (aqi <= 100) / (aqi <= 200) / else`. -/
def analyze (data : Conditions) : Advisory :=
  let aqi := data.aqi
  let temp := data.temp
  let weather := data.weather
  if aqi ≤ 50 then
    { advice := goodAdvice temp }
  else if aqi ≤ 100 then
    { advice := moderateAdvice weather }
  else if aqi ≤ 200 then
    { advice := unhealthyAdvice }
  else
    { advice := hazardousAdvice weather }

/-- The four advisory bands named by the spec. -/
inductive Band where
  | good
  | moderate
  | unhealthy
  | hazardous
deriving DecidableEq, Repr

/-- The spec's band table, written from its words: bands are the ranges
0–50, 51–100, 101–200 and 201+, each inclusive of its upper bound. -/
def bandOf (v : Int) : Band :=
  if v ≤ 50 then .good
  else if 51 ≤ v ∧ v ≤ 100 then .moderate
  else if 101 ≤ v ∧ v ≤ 200 then .unhealthy
  else .hazardous

/-- The advisory text the spec assigns to each band. -/
def bandMessage (b : Band) (c : Conditions) : String :=
  match b with
  | .good => goodAdvice c.temp
  | .moderate => moderateAdvice c.weather
  | .unhealthy => unhealthyAdvice
  | .hazardous => hazardousAdvice c.weather

/-- C1: `analyze` is total and returns exactly the advisory of one of the four
spec bands; band boundaries are inclusive of the upper bound of each range:
aqi ≤ 50 → Good, 51 ≤ aqi ≤ 100 → Moderate, 101 ≤ aqi ≤ 200 → Unhealthy and
201 ≤ aqi → Hazardous (so classify(50)→Good, classify(51)→Moderate,
classify(100)→Moderate, classify(101)→Unhealthy, classify(200)→Unhealthy,
classify(201)→Hazardous), and no AQI value escapes the four bands. -/
theorem analyze_bands (c : Conditions) :
    (analyze c).advice = bandMessage (bandOf c.aqi) c ∧
    (bandOf c.aqi = .good ↔ c.aqi ≤ 50) ∧
    (bandOf c.aqi = .moderate ↔ 51 ≤ c.aqi ∧ c.aqi ≤ 100) ∧
    (bandOf c.aqi = .unhealthy ↔ 101 ≤ c.aqi ∧ c.aqi ≤ 200) ∧
    (bandOf c.aqi = .hazardous ↔ 201 ≤ c.aqi) := by
  refine ⟨?_, ?_, ?_, ?_, ?_⟩
  · by_cases h1 : c.aqi ≤ 50
    · simp [analyze, bandMessage, bandOf, h1]
    · by_cases h2 : c.aqi ≤ 100
      · have hm : 51 ≤ c.aqi ∧ c.aqi ≤ 100 := by omega
        simp [analyze, bandMessage, bandOf, h1, h2, hm]
      · by_cases h3 : c.aqi ≤ 200
        · have hm : ¬(51 ≤ c.aqi ∧ c.aqi ≤ 100) := by omega
          have hu : 101 ≤ c.aqi ∧ c.aqi ≤ 200 := by omega
          simp [analyze, bandMessage, bandOf, h1, h2, h3, hm, hu]
        · have hm : ¬(51 ≤ c.aqi ∧ c.aqi ≤ 100) := by omega
          have hu : ¬(101 ≤ c.aqi ∧ c.aqi ≤ 200) := by omega
          simp [analyze, bandMessage, bandOf, h1, h2, h3, hm, hu]
  all_goals unfold bandOf
  all_goals split_ifs <;> simp <;> omega

/-- C3 counterexample: a reverse lookup that succeeds at the transport level
but whose response contains no address returns cityName "Unknown Location" —
not the degraded "Current Location" record the claim requires for that case. -/
theorem getCityByCoords_noAddress_cex :
    (getCityByCoords 1 2 (.response true ⟨none, some ("X")⟩)).cityName = "Unknown Location" ∧
    (getCityByCoords 1 2 (.response true ⟨none, some ("X")⟩)).cityName ≠ "Current Location" := by
  constructor
  · rfl
  · decide

/-- C3 amended: `getCityByCoords` never fails observably.  When the reverse
lookup fails (transport error or non-success status, the paths that throw),
it returns the degraded Location with cityName "Current Location",
countryCode "" and the input coordinates verbatim; a successful response with
no address instead keeps the coordinates and yields cityName
"Unknown Location" with countryCode "". -/
theorem getCityByCoords_degraded (lat lon : ℚ) (body : ReverseBody) (dn : Option String) :
    getCityByCoords lat lon .netError =
      { lat := lat, lon := lon, cityName := "Current Location", country := "",
        displayName := none } ∧
    getCityByCoords lat lon (.response false body) =
      { lat := lat, lon := lon, cityName := "Current Location", country := "",
        displayName := none } ∧
    getCityByCoords lat lon (.response true ⟨none, dn⟩) =
      { lat := lat, lon := lon, cityName := "Unknown Location", country := "",
        displayName := dn } :=
  ⟨rfl, rfl, rfl⟩

/-- C10: the swallowed-failure path of `getCityByCoords` returns a Location
whose displayName is absent, while a successful reverse lookup and a
successful `validateCity` both carry the provider's display name; hence some
inputs hand the caller a Location with no displayName. -/
theorem displayName_presence (lat lon : ℚ) (body : ReverseBody) (city : String)
    (m : SearchMatch) (rest : List SearchMatch) :
    (getCityByCoords lat lon .netError).displayName = none ∧
    (getCityByCoords lat lon (.response true body)).displayName = body.display_name ∧
    (∃ loc, validateCity city (.response true (m :: rest)) = .ok loc ∧
      loc.displayName = m.display_name) :=
  ⟨rfl, rfl, ⟨_, rfl, rfl⟩⟩

/-- C7: `validateCity` fails with the not-found error (whose message says to
check the spelling) exactly when the service returns zero matches, and with
the distinct service-unavailable error when the transport call fails or the
response has a non-success status; a non-empty match list succeeds. -/
theorem validateCity_error_taxonomy (city : String) (body : List SearchMatch)
    (m : SearchMatch) (rest : List SearchMatch) :
    validateCity city (.response true []) =
      .error ("City not found. Please check the spelling and try again.") ∧
    validateCity city .netError =
      .error ("Unable to validate city. Please try again later.") ∧
    validateCity city (.response false body) =
      .error ("Unable to validate city. Please try again later.") ∧
    (∃ loc, validateCity city (.response true (m :: rest)) = .ok loc) ∧
    strIncludes ("City not found. Please check the spelling and try again.")
      ("check the spelling") = true ∧
    ("City not found. Please check the spelling and try again." : String) ≠
      "Unable to validate city. Please try again later." := by
  refine ⟨rfl, rfl, rfl, ⟨_, rfl⟩, by decide, by decide⟩

/-- C9: `analyze` depends only on the aqi, temp and weather fields of its
input: two Conditions records agreeing on those three fields yield identical
advisories regardless of every other field; outside the Good band the
temperature never influences the text, and in the Good band the text embeds
the temperature. -/
theorem analyze_noninterference (c₁ c₂ : Conditions)
    (ha : c₁.aqi = c₂.aqi) (ht : c₁.temp = c₂.temp) (hw : c₁.weather = c₂.weather) :
    analyze c₁ = analyze c₂ ∧
    (50 < c₁.aqi → ∀ t, analyze { c₁ with temp := t } = analyze c₁) ∧
    (c₁.aqi ≤ 50 → ∃ p q, (analyze c₁).advice = p ++ toString c₁.temp ++ q) := by
  refine ⟨?_, ?_, ?_⟩
  · simp [analyze, ha, ht, hw]
  · intro hgt t
    have h1 : ¬c₁.aqi ≤ 50 := by omega
    simp [analyze, h1]
  · intro hle
    exact ⟨"Currently, the air is pristine. It\x27s a great time to open windows or go for a run. The temperature is ",
           "°C, making it comfortable. Enjoy the fresh air!",
           by simp [analyze, hle, goodAdvice]⟩

/-- Witness for C9: two Conditions records sharing only aqi, temp and
weather (every other field differs) receive the same advisory. -/
theorem analyze_noninterference_witness :
    analyze { city := "A", country := "X", aqi := 120, temp := 10, humidity := 5, wind := 3,
              pm25 := 1, pm10 := 2, o3 := 3, weather := "Clear", forecast := [1] } =
    analyze { city := "B", country := "Y", aqi := 120, temp := 10, humidity := 80, wind := 9,
              pm25 := 4, pm10 := 5, o3 := 6, weather := "Clear", forecast := [2, 3] } :=
  (analyze_noninterference
    { city := "A", country := "X", aqi := 120, temp := 10, humidity := 5, wind := 3,
      pm25 := 1, pm10 := 2, o3 := 3, weather := "Clear", forecast := [1] }
    { city := "B", country := "Y", aqi := 120, temp := 10, humidity := 80, wind := 9,
      pm25 := 4, pm10 := 5, o3 := 6, weather := "Clear", forecast := [2, 3] }
    rfl rfl rfl).1

/-- C4: when no timestamp of the hourly series is ≥ now (the series lies
entirely in the past, or is empty), `processForecast` returns the fixed
fallback [50, 50, 50, 50, 50, 50]. -/
theorem processForecast_pastOnly (h : HourlyData) (now : Int)
    (hall : ∀ t ∈ h.time, t < now) :
    processForecast h now = [50, 50, 50, 50, 50, 50] := by
  have hfind : h.time.findIdx? (fun t => decide (now ≤ t)) = none := by
    rw [List.findIdx?_eq_none_iff]
    intro x hx
    have := hall x hx
    simp only [decide_eq_false_iff_not]
    omega
  simp [processForecast, hfind]

/-- Witness for C4: a two-sample series wholly in the past. -/
theorem processForecast_pastOnly_witness :
    processForecast { time := [0, 3600000], us_aqi := [12, 34] } 7200000 =
      [50, 50, 50, 50, 50, 50] :=
  processForecast_pastOnly { time := [0, 3600000], us_aqi := [12, 34] } 7200000 (by decide)

/-- C2: for a series of seven consecutive hourly timestamps t-4h .. t+2h with
values v0 .. v6 and now = t, `processForecast` returns exactly
[v0, v1, v2, v3, v4, v5], i.e. the four historical samples, the current one
and the next hour. -/
theorem processForecast_aligned (t v0 v1 v2 v3 v4 v5 v6 : Int) :
    processForecast
      { time := [t - 4 * 3600000, t - 3 * 3600000, t - 2 * 3600000, t - 3600000,
                 t, t + 3600000, t + 2 * 3600000],
        us_aqi := [v0, v1, v2, v3, v4, v5, v6] } t = [v0, v1, v2, v3, v4, v5] := by
  have hfind : ([t - 4 * 3600000, t - 3 * 3600000, t - 2 * 3600000, t - 3600000,
      t, t + 3600000, t + 2 * 3600000] : List Int).findIdx?
        (fun x => decide (t ≤ x)) = some 4 := by
    simp [List.findIdx?_cons,
          show ¬(t ≤ t - 4 * 3600000) from by omega,
          show ¬(t ≤ t - 3 * 3600000) from by omega,
          show ¬(t ≤ t - 2 * 3600000) from by omega,
          show ¬(t ≤ t - 3600000) from by omega,
          show t ≤ t from le_refl t]
  unfold processForecast
  rw [hfind]
  simp [sampleAt, jsOr50]

/-- C5 counterexample: with the one-sample series time = [10], us_aqi = [0]
and now = 0, the current-hour index is 0 and its value 0 is present in the
series, yet every out-of-bounds historical offset receives 50, not that
value: `us_aqi[currentHourIndex] || 50` treats the available value 0 as
falsy.  The claim predicts [0, 0, 0, 0, 0, 0]; the code yields
[50, 50, 50, 50, 0, 0]. -/
theorem processForecast_zero_cex :
    (({ time := [10], us_aqi := [0] } : HourlyData)).us_aqi.get? 0 = some 0 ∧
    processForecast { time := [10], us_aqi := [0] } 0 = [50, 50, 50, 50, 0, 0] ∧
    processForecast { time := [10], us_aqi := [0] } 0 ≠ [0, 0, 0, 0, 0, 0] := by
  refine ⟨rfl, by decide, by decide⟩

/-- C5 amended: for each offset k ∈ {4,3,2,1,0} before the current-hour
index, an in-bounds index takes the hourly value verbatim; an out-of-bounds
index substitutes the value at the current-hour index when that value is
available and non-zero, and 50 when it is unavailable or zero (JS `|| 50`
treats 0 as falsy). -/
theorem processForecast_history_policy (h : HourlyData) (now : Int) (ci : Nat)
    (hci : h.time.findIdx? (fun t => decide (now ≤ t)) = some ci)
    (k : Nat) (hk : k ≤ 4) :
    (processForecast h now).get? (4 - k) =
      some (if k ≤ ci ∧ ci - k < h.us_aqi.length then
              h.us_aqi.getD (ci - k) 0
            else
              match h.us_aqi.get? ci with
              | some v => if v = 0 then 50 else v
              | none => 50) := by
  unfold processForecast
  rw [hci]
  interval_cases k <;> simp [sampleAt, jsOr50]

/-- Witness for C5 amended: series time = [0, 10], us_aqi = [7, 8], now = 5;
the current-hour index is 1, offset 4 is out of bounds and the current-hour
value 8 is substituted. -/
theorem processForecast_history_policy_witness :
    (processForecast { time := [0, 10], us_aqi := [7, 8] } 5).get? 0 = some 8 := by
  have h := processForecast_history_policy { time := [0, 10], us_aqi := [7, 8] } 5 1
    (by decide) 4 (by decide)
  rw [show (4 - 4 : Nat) = 0 from rfl] at h
  rw [h]
  decide

/-- Each element pushed by the history loop is non-negative whenever every
value of the series is. -/
theorem sampleAt_nonneg (vals : List Int) (ci off : Nat)
    (hpos : ∀ v ∈ vals, 0 ≤ v) : 0 ≤ sampleAt vals ci off := by
  unfold sampleAt
  split_ifs with hin
  · have hlt : ci - off < vals.length := hin.2
    rw [List.getD_eq_getElem?_getD, List.getElem?_eq_getElem hlt]
    exact hpos _ (List.getElem_mem hlt)
  · cases hg : vals.get? ci with
    | none => simp [jsOr50]
    | some v =>
      have hv := hpos v (List.get?_mem hg)
      simp only [jsOr50]
      split_ifs <;> omega

/-- C6: for every hourly series (any length, including empty) and every now,
`processForecast` returns exactly 6 values, and they are all non-negative
whenever the series' AQI values are (AQI values are non-negative integers by
the data model). -/
theorem processForecast_shape (h : HourlyData) (now : Int)
    (hpos : ∀ v ∈ h.us_aqi, 0 ≤ v) :
    (processForecast h now).length = 6 ∧ ∀ x ∈ processForecast h now, 0 ≤ x := by
  constructor
  · unfold processForecast
    cases h.time.findIdx? (fun t => decide (now ≤ t)) <;> simp
  · intro x hx
    unfold processForecast at hx
    split at hx
    · simp at hx
      omega
    · simp only [List.mem_append, List.mem_cons, List.mem_singleton,
        List.not_mem_nil, or_false] at hx
      rcases hx with (h4 | h3 | h2 | h1 | h0) | hfc
      · exact h4 ▸ sampleAt_nonneg _ _ _ hpos
      · exact h3 ▸ sampleAt_nonneg _ _ _ hpos
      · exact h2 ▸ sampleAt_nonneg _ _ _ hpos
      · exact h1 ▸ sampleAt_nonneg _ _ _ hpos
      · exact h0 ▸ sampleAt_nonneg _ _ _ hpos
      · rw [hfc]
        cases hg : h.us_aqi.get? _ with
        | none => exact sampleAt_nonneg _ _ _ hpos
        | some v => exact hpos v (List.get?_mem hg)

/-- Witness for C6: the empty series still yields 6 non-negative values. -/
theorem processForecast_shape_witness :
    (processForecast { time := [], us_aqi := [] } 0).length = 6 ∧
    ∀ x ∈ processForecast { time := [], us_aqi := [] } 0, 0 ≤ x :=
  processForecast_shape { time := [], us_aqi := [] } 0 (by simp)

/-- C8: when the air-quality retrieval succeeds at the transport level but
the current-AQI field is absent or null, `getCityData` fails with the
distinct no-monitoring-coverage message ("try a different city") even though
the weather retrieval succeeded, and no Conditions record is produced. -/
theorem getCityData_noCoverage (loc : Location) (wbody : WeatherBody) (abody : AqiBody)
    (now : Int)
    (hnull : abody.current = none ∨ ∃ cur, abody.current = some cur ∧ cur.us_aqi = none) :
    getCityData loc (.response true wbody) (.response true abody) now =
      .error ("Air quality data is not available for this location. Please try a different city.") := by
  rcases hnull with hc | ⟨cur, hc, hn⟩
  · simp [getCityData, hc]
  · simp [getCityData, hc, hn]

/-- Witness for C8: a successful weather response and a successful
air-quality response whose `current` member is absent. -/
theorem getCityData_noCoverage_witness :
    getCityData
      { lat := 0, lon := 0, cityName := "X", country := "", displayName := none }
      (.response true { current := { temperature_2m := 20, relative_humidity_2m := 50,
                                     wind_speed_10m := 10, weather_code := 0 } })
      (.response true { current := none, hourly := { time := [], us_aqi := [] } }) 0 =
      .error ("Air quality data is not available for this location. Please try a different city.") :=
  getCityData_noCoverage
    { lat := 0, lon := 0, cityName := "X", country := "", displayName := none }
    { current := { temperature_2m := 20, relative_humidity_2m := 50,
                   wind_speed_10m := 10, weather_code := 0 } }
    { current := none, hourly := { time := [], us_aqi := [] } } 0 (Or.inl rfl)
